import Mathlib

/-
Shallow embedding of the startup/shutdown orchestration engine in
`src/main.js` (Electron supervisor for a Postgres database process and a
Listmonk application process).

Pure string scanning, the readiness promise state machine, per-process
event handlers, the storage initializer, the port allocator, the
shutdown coordinator and the post-listmonk stage of the startup pipeline
are translated directly from the source.  Child-process behaviour that
lives outside the repository (whether a probe bind succeeds, what lines
a process prints, with which code it exits, whether a kill call throws)
is passed in as explicit parameters or event traces.
-/

/-- Consume the literal `lit` from the front of `cs`: `some rest` when
`cs = lit ++ rest`, otherwise `none`. -/
def dropLit : List Char → List Char → Option (List Char)
  | [], cs => some cs
  | _ :: _, [] => none
  | l :: ls, c :: cs => if c = l then dropLit ls cs else none

/-- Does `pat` occur as a contiguous run anywhere in the character list?
Backs the JS `String.prototype.includes` call in `checkLine`
(main.js line 172). -/
def hasSub (pat : List Char) : List Char → Bool
  | [] => (dropLit pat []).isSome
  | c :: tl => (dropLit pat (c :: tl)).isSome || hasSub pat tl

/-- JS `s.includes(pat)` for the fixed non-empty needles used in main.js. -/
def jsIncludes (s pat : String) : Bool :=
  hasSub pat.data s.data

/-- The Postgres readiness check of `checkLine` (main.js lines 171-175):
the chunk contains the fixed marker text. -/
def pgReadyLine (line : String) : Bool :=
  jsIncludes line "database system is ready to accept connections"

/-- Leftmost match of the JS regex `lit(\d+)` inside a character list:
scan left to right for the first position where the literal `lit` occurs
followed by at least one digit, and return the greedy digit run
(the capture group).  Backs the two `line.match(...)` calls in
`startListmonk` (main.js lines 274-278). -/
def searchLitDigits (lit : List Char) : List Char → Option (List Char)
  | [] => none
  | c :: tl =>
    match dropLit lit (c :: tl) with
    | some rest =>
      let ds := rest.takeWhile Char.isDigit
      if ds.isEmpty then searchLitDigits lit tl else some ds
    | none => searchLitDigits lit tl

/-- The Listmonk readiness matcher of `startListmonk` (main.js
lines 274-281): try `http server started on 127.0.0.1:(\d+)` first and,
only when it fails, `Web server listening on http:\/\/127.0.0.1:(\d+)`;
the result is the captured port digits `match[1]`. -/
def lmMatchPort (line : String) : Option String :=
  match searchLitDigits "http server started on 127.0.0.1:".data line.data with
  | some ds => some (String.mk ds)
  | none =>
    match searchLitDigits "Web server listening on http://127.0.0.1:".data line.data with
    | some ds => some (String.mk ds)
    | none => none

/-- The state of a JS promise: pending, resolved with a value, or
rejected with an error message. -/
inductive PromiseState (α : Type) where
  | pending : PromiseState α
  | resolvedWith : α → PromiseState α
  | rejectedWith : String → PromiseState α
  deriving DecidableEq, Repr

/-- JS `resolve`: settles a pending promise, a no-op on a settled one. -/
def promiseResolve {α : Type} : PromiseState α → α → PromiseState α
  | .pending, a => .resolvedWith a
  | s, _ => s

/-- JS `reject`: settles a pending promise, a no-op on a settled one. -/
def promiseReject {α : Type} : PromiseState α → String → PromiseState α
  | .pending, e => .rejectedWith e
  | s, _ => s

/-- Is the promise in the rejected state? -/
def promiseIsRejected {α : Type} : PromiseState α → Bool
  | .rejectedWith _ => true
  | _ => false

/-- One event delivered to a supervised process handle: a stdout data
chunk, a stderr data chunk, the `close` event with the exit code
(`none` models a null code from a signal kill), or the spawn `error`
event with its message. -/
inductive PEvent where
  | outLine : String → PEvent
  | errLine : String → PEvent
  | closeEv : Option Int → PEvent
  | errorEv : String → PEvent
  deriving DecidableEq, Repr

/-- The mutable state touched by the `startPostgres` handlers
(main.js lines 148-198): the readiness promise and the error dialogs
shown so far. -/
structure PgState where
  promise : PromiseState Unit
  notifications : List String
  deriving DecidableEq, Repr

/-- The mutable state touched by the `startListmonk` handlers
(main.js lines 231-297): the readiness promise, the captured
`ephemeralPort` variable and the error dialogs shown so far. -/
structure LmState where
  promise : PromiseState String
  ephemeralPort : Option String
  notifications : List String
  deriving DecidableEq, Repr

/-- One `startPostgres` event dispatch.  The `Bool` component is the
value of the module-level `isQuitting` flag at the moment the event
fires.  Both stdout and stderr chunks run `checkLine`, resolving the
promise on the readiness marker; the `close` handler only shows the
crash dialog when `!isQuitting && code !== 0` and never settles the
promise; the spawn `error` handler rejects (main.js lines 165-194). -/
def pgStep (st : PgState) : Bool × PEvent → PgState
  | (_, .outLine line) =>
    if pgReadyLine line then { st with promise := promiseResolve st.promise () } else st
  | (_, .errLine line) =>
    if pgReadyLine line then { st with promise := promiseResolve st.promise () } else st
  | (q, .closeEv c) =>
    if q then st
    else if c = some 0 then st
    else { st with notifications := st.notifications ++ ["Postgres Error"] }
  | (_, .errorEv msg) => { st with promise := promiseReject st.promise msg }

/-- One `startListmonk` event dispatch.  Only stdout chunks are matched
against the two port patterns; a match stores the captured port and
resolves the promise.  The stderr handler only logs.  The `close`
handler shows the crash dialog when `!isQuitting && code !== 0` and
never settles the promise; the spawn `error` handler rejects
(main.js lines 262-295). -/
def lmStep (st : LmState) : Bool × PEvent → LmState
  | (_, .outLine line) =>
    match lmMatchPort line with
    | some p => { st with ephemeralPort := some p, promise := promiseResolve st.promise p }
    | none => st
  | (_, .errLine _) => st
  | (q, .closeEv c) =>
    if q then st
    else if c = some 0 then st
    else { st with notifications := st.notifications ++ ["Listmonk Stopped"] }
  | (_, .errorEv msg) => { st with promise := promiseReject st.promise msg }

/-- State of the Postgres handle at the start of `startPostgres`. -/
def pgInit : PgState := { promise := .pending, notifications := [] }

/-- State of the Listmonk handle at the start of `startListmonk`. -/
def lmInit : LmState := { promise := .pending, ephemeralPort := none, notifications := [] }

/-- Run the `startPostgres` handlers over a whole event trace. -/
def pgRun (evs : List (Bool × PEvent)) : PgState :=
  evs.foldl pgStep pgInit

/-- Run the `startListmonk` handlers over a whole event trace. -/
def lmRun (evs : List (Bool × PEvent)) : LmState :=
  evs.foldl lmStep lmInit

/-- Events that can settle the Postgres readiness promise: a readiness
line on either stream, or the spawn error event. -/
def pgSettling : PEvent → Bool
  | .outLine line => pgReadyLine line
  | .errLine line => pgReadyLine line
  | .closeEv _ => false
  | .errorEv _ => true

/-- Events that can settle the Listmonk readiness promise: a matching
line on stdout, or the spawn error event.  Stderr lines never settle. -/
def lmSettling : PEvent → Bool
  | .outLine line => (lmMatchPort line).isSome
  | .errLine _ => false
  | .closeEv _ => false
  | .errorEv _ => true

/-- Is the event a `close` event? -/
def isCloseEv : PEvent → Bool
  | .closeEv _ => true
  | _ => false

/-- The crash dialogs a trace of `startListmonk` events produces: one
per `close` event that fires with the quitting flag unset and a code
other than 0. -/
def lmNotifs (evs : List (Bool × PEvent)) : List String :=
  evs.filterMap fun e =>
    match e with
    | (q, .closeEv c) => if q then none else if c = some 0 then none else some "Listmonk Stopped"
    | _ => none

/-- The crash dialogs a trace of `startPostgres` events produces. -/
def pgNotifs (evs : List (Bool × PEvent)) : List String :=
  evs.filterMap fun e =>
    match e with
    | (q, .closeEv c) => if q then none else if c = some 0 then none else some "Postgres Error"
    | _ => none

/-- The on-disk storage state `initDbIfNeeded` reads and writes: the
data directory, the leftover `postmaster.pid` lock artifact, and the
`initialized.txt` marker (main.js lines 96-144). -/
structure StorageState where
  dataDirExists : Bool
  lockFileExists : Bool
  markerExists : Bool
  deriving DecidableEq, Repr

/-- Outcome of running the `initdb` child process: the `close` event
code, or a spawn error (main.js lines 127-141). -/
inductive InitdbOutcome where
  | exited : Int → InitdbOutcome
  | spawnFailed : String → InitdbOutcome
  deriving DecidableEq, Repr

/-- Result of one `initDbIfNeeded` run: the storage state afterwards,
the value of the returned promise, and how many times the `initdb`
bootstrap command was spawned during this run. -/
structure InitRunResult where
  state : StorageState
  result : Except String Unit
  bootstrapRuns : Nat
  deriving Repr

/-- `initDbIfNeeded` (main.js lines 109-144): create the data directory
if absent; best-effort removal of the leftover lock file
(`unlinkOk = false` models the `fs.unlinkSync` failure that is logged
and swallowed in `cleanLeftoverLockFile`, main.js lines 96-106); when
the `initialized.txt` marker is absent, spawn `initdb` and on exit
code 0 write the marker and resolve, otherwise reject without writing
the marker. -/
def initDbIfNeeded (unlinkOk : Bool) (outcome : InitdbOutcome) (st : StorageState) :
    InitRunResult :=
  let st1 : StorageState := { st with dataDirExists := true }
  let st2 : StorageState := { st1 with lockFileExists := st1.lockFileExists && !unlinkOk }
  if st2.markerExists then
    { state := st2, result := .ok (), bootstrapRuns := 0 }
  else
    match outcome with
    | .exited c =>
      if c = 0 then
        { state := { st2 with markerExists := true }, result := .ok (), bootstrapRuns := 1 }
      else
        { state := st2
          result := .error ("initdb exited with code " ++ toString c)
          bootstrapRuns := 1 }
    | .spawnFailed msg =>
      { state := st2, result := .error msg, bootstrapRuns := 1 }

/-- `findFreePort` (main.js lines 63-82), instrumented with the list of
probed candidates.  `free port` is the outcome of the transient bind
probe on `port` (`true` when the `listening` event fires, `false` when
the `error` event fires).  `s` is the original `startPort`, kept only
for the text of the thrown error. -/
def findFreePortRun (free : Nat → Bool) (s : Nat) : Nat → Nat → List Nat × Except String Nat
  | _, 0 => ([], .error ("No free port found for Postgres starting at " ++ toString s))
  | port, n + 1 =>
    if free port then ([port], .ok port)
    else
      let r := findFreePortRun free s (port + 1) n
      (port :: r.1, r.2)

/-- The value `findFreePort(startPort, maxAttempts)` returns or throws. -/
def findFreePort (free : Nat → Bool) (startPort maxAttempts : Nat) : Except String Nat :=
  (findFreePortRun free startPort startPort maxAttempts).2

/-- The candidate ports `findFreePort` probes, in order. -/
def probedPorts (free : Nat → Bool) (startPort maxAttempts : Nat) : List Nat :=
  (findFreePortRun free startPort startPort maxAttempts).1

/-- How the kill calls on one child-process handle behave in the
current environment: whether `kill('SIGTERM')` throws and whether the
fallback `kill()` throws. -/
structure KillBehavior where
  sigtermThrows : Bool
  killThrows : Bool
  deriving DecidableEq, Repr

/-- A termination call the `will-quit` handler makes on a role. -/
inductive ShutdownAction where
  | sigterm : String → ShutdownAction
  | forceKill : String → ShutdownAction
  deriving DecidableEq, Repr

/-- One `if (handle) { try { handle.kill('SIGTERM') } catch (_) { handle.kill() } }`
block of the `will-quit` handler (main.js lines 350-363): the calls
attempted, and the uncaught exception if the fallback kill itself
throws (the catch block is not guarded). -/
def killWithFallback (role : String) (h : Option KillBehavior) :
    List ShutdownAction × Option String :=
  match h with
  | none => ([], none)
  | some b =>
    if b.sigtermThrows then
      ([.sigterm role, .forceKill role],
        if b.killThrows then some (role ++ " kill raised") else none)
    else
      ([.sigterm role], none)

/-- The `will-quit` handler (main.js lines 348-364): the Listmonk block
runs first, then the Postgres block; an uncaught exception from the
first block propagates and skips the second. -/
def willQuit (lm pg : Option KillBehavior) : List ShutdownAction × Option String :=
  let a1 := killWithFallback "listmonk" lm
  match a1.2 with
  | some err => (a1.1, some err)
  | none =>
    let a2 := killWithFallback "postgres" pg
    (a1.1 ++ a2.1, a2.2)

/-- The module-level process handles of main.js (lines 29-30). -/
structure ModuleState where
  pgProcess : Option KillBehavior
  listmonkProcess : Option KillBehavior
  deriving DecidableEq, Repr

/-- The synchronous body of the `startPostgres` promise executor
(main.js lines 148-197): it spawns the child, registers the handlers
and ends with the assignment `pgProcess = proc`.  Node delivers the
spawn `error` and `close` events asynchronously, so the whole body runs
before any event of the trace is dispatched. -/
def startPostgresSpawnPhase (st : ModuleState) (proc : KillBehavior) : ModuleState :=
  { st with pgProcess := some proc }

/-- A full `startPostgres` call: the synchronous executor body, then
the handler trace.  The resulting module state is independent of the
events because the assignment already happened in the synchronous
phase. -/
def startPostgresRun (st : ModuleState) (proc : KillBehavior)
    (evs : List (Bool × PEvent)) : ModuleState × PgState :=
  (startPostgresSpawnPhase st proc, pgRun evs)

/-- Outcome of the tail of the `app.whenReady` pipeline (main.js
lines 323-334): what happens after `await startListmonk(pgPort)`. -/
inductive PipelineOutcome where
  | windowLoaded : String → PipelineOutcome
  | startupError : String → PipelineOutcome
  | stalled : PipelineOutcome
  deriving DecidableEq, Repr

/-- JS `s || d` for strings: the default replaces only a falsy (empty)
string.  Backs `ephemeralPort || '9000'` (main.js line 325) and
`port || '9000'` (main.js line 302). -/
def jsOrDefault (s d : String) : String :=
  if s = "" then d else s

/-- Steps E-F of the `app.whenReady` handler (main.js lines 323-334)
as a function of the Listmonk event trace: when the readiness promise
resolves, the window loads `ephemeralPort || '9000'`; when it rejects,
the catch block shows the Startup Error dialog; while it is pending the
`await` never completes and the pipeline stalls. -/
def pipelineAfterListmonk (evs : List (Bool × PEvent)) : PipelineOutcome :=
  match (lmRun evs).promise with
  | .resolvedWith p => .windowLoaded (jsOrDefault p "9000")
  | .rejectedWith e => .startupError e
  | .pending => .stalled

/-! Helper lemmas about the promise state machine and the event folds. -/

/-- Resolve is a no-op on a settled promise state. -/
theorem promiseResolve_settled {α : Type} (s : PromiseState α) (a : α)
    (h : s ≠ PromiseState.pending) : promiseResolve s a = s := by
  cases s with
  | pending => exact absurd rfl h
  | resolvedWith b => rfl
  | rejectedWith e => rfl

/-- Reject is a no-op on a settled promise state. -/
theorem promiseReject_settled {α : Type} (s : PromiseState α) (e : String)
    (h : s ≠ PromiseState.pending) : promiseReject s e = s := by
  cases s with
  | pending => exact absurd rfl h
  | resolvedWith b => rfl
  | rejectedWith e => rfl

/-- A non-settling event leaves the Listmonk promise untouched. -/
theorem lmStep_promise_of_not_settling (st : LmState) (e : Bool × PEvent)
    (h : lmSettling e.2 = false) : (lmStep st e).promise = st.promise := by
  obtain ⟨q, ev⟩ := e
  cases ev with
  | outLine line =>
    simp only [lmSettling] at h
    cases hm : lmMatchPort line with
    | none => simp [lmStep, hm]
    | some p => rw [hm] at h; simp at h
  | errLine line => simp [lmStep]
  | closeEv c =>
    simp only [lmStep]
    split
    · rfl
    · split <;> rfl
  | errorEv msg => simp [lmSettling] at h

/-- A non-settling event leaves the Postgres promise untouched. -/
theorem pgStep_promise_of_not_settling (st : PgState) (e : Bool × PEvent)
    (h : pgSettling e.2 = false) : (pgStep st e).promise = st.promise := by
  obtain ⟨q, ev⟩ := e
  cases ev with
  | outLine line => simp only [pgSettling] at h; simp [pgStep, h]
  | errLine line => simp only [pgSettling] at h; simp [pgStep, h]
  | closeEv c =>
    simp only [pgStep]
    split
    · rfl
    · split <;> rfl
  | errorEv msg => simp [pgSettling] at h

/-- A trace of non-settling events leaves the Listmonk promise untouched. -/
theorem lmFold_promise_of_not_settling (evs : List (Bool × PEvent)) :
    ∀ st : LmState, (∀ e ∈ evs, lmSettling e.2 = false) →
      (evs.foldl lmStep st).promise = st.promise := by
  induction evs with
  | nil => intro st _; rfl
  | cons e tl ih =>
    intro st h
    rw [List.foldl_cons, ih (lmStep st e) fun x hx => h x (List.mem_cons_of_mem _ hx)]
    exact lmStep_promise_of_not_settling st e (h e (List.mem_cons_self _ _))

/-- A trace of non-settling events leaves the Postgres promise untouched. -/
theorem pgFold_promise_of_not_settling (evs : List (Bool × PEvent)) :
    ∀ st : PgState, (∀ e ∈ evs, pgSettling e.2 = false) →
      (evs.foldl pgStep st).promise = st.promise := by
  induction evs with
  | nil => intro st _; rfl
  | cons e tl ih =>
    intro st h
    rw [List.foldl_cons, ih (pgStep st e) fun x hx => h x (List.mem_cons_of_mem _ hx)]
    exact pgStep_promise_of_not_settling st e (h e (List.mem_cons_self _ _))

/-- Every Listmonk dispatch either keeps, resolves or rejects the promise. -/
theorem lmStep_promise_cases (st : LmState) (e : Bool × PEvent) :
    (lmStep st e).promise = st.promise ∨
    (∃ p, (lmStep st e).promise = promiseResolve st.promise p) ∨
    (∃ m, (lmStep st e).promise = promiseReject st.promise m) := by
  obtain ⟨q, ev⟩ := e
  cases ev with
  | outLine line =>
    cases hm : lmMatchPort line with
    | none => left; simp [lmStep, hm]
    | some p => right; left; exact ⟨p, by simp [lmStep, hm]⟩
  | errLine line => left; simp [lmStep]
  | closeEv c =>
    left
    simp only [lmStep]
    split
    · rfl
    · split <;> rfl
  | errorEv msg => right; right; exact ⟨msg, by simp [lmStep]⟩

/-- Every Postgres dispatch either keeps, resolves or rejects the promise. -/
theorem pgStep_promise_cases (st : PgState) (e : Bool × PEvent) :
    (pgStep st e).promise = st.promise ∨
    (∃ p, (pgStep st e).promise = promiseResolve st.promise p) ∨
    (∃ m, (pgStep st e).promise = promiseReject st.promise m) := by
  obtain ⟨q, ev⟩ := e
  cases ev with
  | outLine line =>
    by_cases hr : pgReadyLine line = true
    · right; left; exact ⟨(), by simp [pgStep, hr]⟩
    · left; simp [pgStep, Bool.not_eq_true _ ▸ hr]
  | errLine line =>
    by_cases hr : pgReadyLine line = true
    · right; left; exact ⟨(), by simp [pgStep, hr]⟩
    · left; simp [pgStep, Bool.not_eq_true _ ▸ hr]
  | closeEv c =>
    left
    simp only [pgStep]
    split
    · rfl
    · split <;> rfl
  | errorEv msg => right; right; exact ⟨msg, by simp [pgStep]⟩

/-- Once the Listmonk promise is resolved, every later event keeps it. -/
theorem lmFold_promise_of_resolved (evs : List (Bool × PEvent)) :
    ∀ (st : LmState) (a : String), st.promise = PromiseState.resolvedWith a →
      (evs.foldl lmStep st).promise = PromiseState.resolvedWith a := by
  induction evs with
  | nil => intro st a h; exact h
  | cons e tl ih =>
    intro st a h
    rw [List.foldl_cons]
    refine ih (lmStep st e) a ?_
    rcases lmStep_promise_cases st e with hc | ⟨p, hc⟩ | ⟨m, hc⟩
    · rw [hc, h]
    · rw [hc, h]; rfl
    · rw [hc, h]; rfl

/-- Once the Postgres promise is resolved, every later event keeps it. -/
theorem pgFold_promise_of_resolved (evs : List (Bool × PEvent)) :
    ∀ (st : PgState) (a : Unit), st.promise = PromiseState.resolvedWith a →
      (evs.foldl pgStep st).promise = PromiseState.resolvedWith a := by
  induction evs with
  | nil => intro st a h; exact h
  | cons e tl ih =>
    intro st a h
    rw [List.foldl_cons]
    refine ih (pgStep st e) a ?_
    rcases pgStep_promise_cases st e with hc | ⟨p, hc⟩ | ⟨m, hc⟩
    · rw [hc, h]
    · rw [hc, h]; rfl
    · rw [hc, h]; rfl

/-- Per-event crash dialogs of one Listmonk dispatch. -/
theorem lmStep_notifications (st : LmState) (e : Bool × PEvent) :
    (lmStep st e).notifications = st.notifications ++ lmNotifs [e] := by
  obtain ⟨q, ev⟩ := e
  cases ev with
  | outLine line =>
    cases hm : lmMatchPort line with
    | none => simp [lmStep, lmNotifs, hm]
    | some p => simp [lmStep, lmNotifs, hm]
  | errLine line => simp [lmStep, lmNotifs]
  | closeEv c =>
    simp only [lmStep, lmNotifs, List.filterMap]
    cases q with
    | true => simp
    | false =>
      by_cases hc : c = some 0
      · simp [hc]
      · simp [hc]
  | errorEv msg => simp [lmStep, lmNotifs]

/-- Per-event crash dialogs of one Postgres dispatch. -/
theorem pgStep_notifications (st : PgState) (e : Bool × PEvent) :
    (pgStep st e).notifications = st.notifications ++ pgNotifs [e] := by
  obtain ⟨q, ev⟩ := e
  cases ev with
  | outLine line =>
    by_cases hr : pgReadyLine line = true
    · simp [pgStep, pgNotifs, hr]
    · simp [pgStep, pgNotifs, Bool.not_eq_true _ ▸ hr]
  | errLine line =>
    by_cases hr : pgReadyLine line = true
    · simp [pgStep, pgNotifs, hr]
    · simp [pgStep, pgNotifs, Bool.not_eq_true _ ▸ hr]
  | closeEv c =>
    simp only [pgStep, pgNotifs, List.filterMap]
    cases q with
    | true => simp
    | false =>
      by_cases hc : c = some 0
      · simp [hc]
      · simp [hc]
  | errorEv msg => simp [pgStep, pgNotifs]

/-- The dialogs of a trace split along a cons. -/
theorem lmNotifs_cons (e : Bool × PEvent) (tl : List (Bool × PEvent)) :
    lmNotifs (e :: tl) = lmNotifs [e] ++ lmNotifs tl := by
  simp only [lmNotifs, List.filterMap_cons, List.filterMap_nil]
  cases h : (match e with
    | (q, PEvent.closeEv c) =>
      if q then none else if c = some 0 then none else some "Listmonk Stopped"
    | _ => none) with
  | none => simp
  | some s => simp

/-- The dialogs of a trace split along a cons. -/
theorem pgNotifs_cons (e : Bool × PEvent) (tl : List (Bool × PEvent)) :
    pgNotifs (e :: tl) = pgNotifs [e] ++ pgNotifs tl := by
  simp only [pgNotifs, List.filterMap_cons, List.filterMap_nil]
  cases h : (match e with
    | (q, PEvent.closeEv c) =>
      if q then none else if c = some 0 then none else some "Postgres Error"
    | _ => none) with
  | none => simp
  | some s => simp

/-- The dialogs a Listmonk trace accumulates on top of a start state. -/
theorem lmFold_notifications (evs : List (Bool × PEvent)) :
    ∀ st : LmState, (evs.foldl lmStep st).notifications = st.notifications ++ lmNotifs evs := by
  induction evs with
  | nil => intro st; simp [lmNotifs]
  | cons e tl ih =>
    intro st
    rw [List.foldl_cons, ih (lmStep st e), lmStep_notifications st e, List.append_assoc,
      ← lmNotifs_cons]

/-- The dialogs a Postgres trace accumulates on top of a start state. -/
theorem pgFold_notifications (evs : List (Bool × PEvent)) :
    ∀ st : PgState, (evs.foldl pgStep st).notifications = st.notifications ++ pgNotifs evs := by
  induction evs with
  | nil => intro st; simp [pgNotifs]
  | cons e tl ih =>
    intro st
    rw [List.foldl_cons, ih (pgStep st e), pgStep_notifications st e, List.append_assoc,
      ← pgNotifs_cons]

/-- Traces without any close event produce no Listmonk dialog. -/
theorem lmNotifs_of_no_close (evs : List (Bool × PEvent))
    (h : ∀ e ∈ evs, isCloseEv e.2 = false) : lmNotifs evs = [] := by
  induction evs with
  | nil => rfl
  | cons e tl ih =>
    rw [lmNotifs_cons, ih fun x hx => h x (List.mem_cons_of_mem _ hx)]
    obtain ⟨q, ev⟩ := e
    cases ev with
    | outLine line => rfl
    | errLine line => rfl
    | closeEv c =>
      have := h (q, PEvent.closeEv c) (List.mem_cons_self _ _)
      simp [isCloseEv] at this
    | errorEv msg => rfl

/-- Traces without any close event produce no Postgres dialog. -/
theorem pgNotifs_of_no_close (evs : List (Bool × PEvent))
    (h : ∀ e ∈ evs, isCloseEv e.2 = false) : pgNotifs evs = [] := by
  induction evs with
  | nil => rfl
  | cons e tl ih =>
    rw [pgNotifs_cons, ih fun x hx => h x (List.mem_cons_of_mem _ hx)]
    obtain ⟨q, ev⟩ := e
    cases ev with
    | outLine line => rfl
    | errLine line => rfl
    | closeEv c =>
      have := h (q, PEvent.closeEv c) (List.mem_cons_self _ _)
      simp [isCloseEv] at this
    | errorEv msg => rfl

/-- The dialogs of a trace split along an append. -/
theorem lmNotifs_append (l1 l2 : List (Bool × PEvent)) :
    lmNotifs (l1 ++ l2) = lmNotifs l1 ++ lmNotifs l2 := by
  simp [lmNotifs, List.filterMap_append]

/-- The dialogs of a trace split along an append. -/
theorem pgNotifs_append (l1 l2 : List (Bool × PEvent)) :
    pgNotifs (l1 ++ l2) = pgNotifs l1 ++ pgNotifs l2 := by
  simp [pgNotifs, List.filterMap_append]

/-- A successful regex search always captures at least one digit. -/
theorem searchLitDigits_ne_nil (lit : List Char) :
    ∀ cs ds, searchLitDigits lit cs = some ds → ds ≠ [] := by
  intro cs
  induction cs with
  | nil => intro ds h; simp [searchLitDigits] at h
  | cons c tl ih =>
    intro ds h
    rw [searchLitDigits] at h
    cases hd : dropLit lit (c :: tl) with
    | none => rw [hd] at h; exact ih ds h
    | some rest =>
      rw [hd] at h
      simp only at h
      cases he : (rest.takeWhile Char.isDigit).isEmpty with
      | true => rw [he, if_pos rfl] at h; exact ih ds h
      | false =>
        rw [he] at h
        simp only [Bool.false_eq_true, if_false, Option.some.injEq] at h
        subst h
        intro hnil
        rw [hnil] at he
        simp [List.isEmpty] at he

/-- A captured port string is never empty, so the JS falsy-default
`ephemeralPort || '9000'` never replaces a captured port. -/
theorem lmMatchPort_ne_empty (line : String) (p : String)
    (h : lmMatchPort line = some p) : p ≠ "" := by
  rw [lmMatchPort] at h
  cases h1 : searchLitDigits "http server started on 127.0.0.1:".data line.data with
  | some ds =>
    rw [h1] at h
    simp only [Option.some.injEq] at h
    subst h
    intro he
    exact searchLitDigits_ne_nil _ _ _ h1 (congrArg String.data he)
  | none =>
    rw [h1] at h
    cases h2 : searchLitDigits "Web server listening on http://127.0.0.1:".data line.data with
    | some ds =>
      rw [h2] at h
      simp only [Option.some.injEq] at h
      subst h
      intro he
      exact searchLitDigits_ne_nil _ _ _ h2 (congrArg String.data he)
    | none => rw [h2] at h; exact absurd h (by simp)

/-- Every payload the Listmonk promise can resolve with is non-empty. -/
theorem lmStep_resolved_ne_empty (st : LmState) (e : Bool × PEvent)
    (h : ∀ p, st.promise = PromiseState.resolvedWith p → p ≠ "") :
    ∀ p, (lmStep st e).promise = PromiseState.resolvedWith p → p ≠ "" := by
  obtain ⟨q, ev⟩ := e
  cases ev with
  | outLine line =>
    cases hm : lmMatchPort line with
    | none => simpa [lmStep, hm] using h
    | some v =>
      intro p hp
      simp only [lmStep, hm] at hp
      cases hs : st.promise with
      | pending =>
        rw [hs] at hp
        simp only [promiseResolve, PromiseState.resolvedWith.injEq] at hp
        subst hp
        exact lmMatchPort_ne_empty line v hm
      | resolvedWith a =>
        rw [hs] at hp
        simp only [promiseResolve, PromiseState.resolvedWith.injEq] at hp
        subst hp
        exact h a hs
      | rejectedWith m => rw [hs] at hp; exact absurd hp (by simp [promiseResolve])
  | errLine line => simpa [lmStep] using h
  | closeEv c =>
    intro p hp
    refine h p ?_
    rw [← hp]
    simp only [lmStep]
    split
    · rfl
    · split <;> rfl
  | errorEv msg =>
    intro p hp
    simp only [lmStep] at hp
    cases hs : st.promise with
    | pending => rw [hs] at hp; exact absurd hp (by simp [promiseReject])
    | resolvedWith a =>
      rw [hs] at hp
      simp only [promiseReject, PromiseState.resolvedWith.injEq] at hp
      subst hp
      exact h a hs
    | rejectedWith m => rw [hs] at hp; exact absurd hp (by simp [promiseReject])

/-- Over any trace, a resolved Listmonk promise carries a non-empty port. -/
theorem lmFold_resolved_ne_empty (evs : List (Bool × PEvent)) :
    ∀ st : LmState, (∀ p, st.promise = PromiseState.resolvedWith p → p ≠ "") →
      ∀ p, (evs.foldl lmStep st).promise = PromiseState.resolvedWith p → p ≠ "" := by
  induction evs with
  | nil => intro st h; exact h
  | cons e tl ih =>
    intro st h
    rw [List.foldl_cons]
    exact ih (lmStep st e) (lmStep_resolved_ne_empty st e h)

/-- When the marker is already present, the initializer only refreshes
the directory and lock cleanup, spawns nothing, and resolves. -/
theorem initDbIfNeeded_marker_present (unlinkOk : Bool) (o : InitdbOutcome)
    (st : StorageState) (h : st.markerExists = true) :
    initDbIfNeeded unlinkOk o st =
      { state := { dataDirExists := true,
                   lockFileExists := st.lockFileExists && !unlinkOk,
                   markerExists := true },
        result := Except.ok (), bootstrapRuns := 0 } := by
  simp [initDbIfNeeded, h]

/-- A run that resolves leaves the marker present. -/
theorem initDbIfNeeded_ok_marker (unlinkOk : Bool) (o : InitdbOutcome) (st : StorageState)
    (h : (initDbIfNeeded unlinkOk o st).result = Except.ok ()) :
    (initDbIfNeeded unlinkOk o st).state.markerExists = true := by
  cases hm : st.markerExists with
  | true => simp [initDbIfNeeded, hm]
  | false =>
    cases o with
    | exited c =>
      by_cases hc : c = 0
      · subst hc; simp [initDbIfNeeded, hm]
      · simp [initDbIfNeeded, hm, hc] at h
    | spawnFailed msg => simp [initDbIfNeeded, hm] at h

/-- One kill block never lets an exception escape unless the graceful
signal and the forceful fallback both throw. -/
theorem killWithFallback_no_raise (role : String) (h : Option KillBehavior)
    (hb : ∀ b, h = some b → b.sigtermThrows = true → b.killThrows = false) :
    (killWithFallback role h).2 = none := by
  cases h with
  | none => rfl
  | some b =>
    cases hs : b.sigtermThrows with
    | false => simp [killWithFallback, hs]
    | true => simp [killWithFallback, hs, hb b rfl hs]

/-- Full characterization of the probe loop of `findFreePort`: starting
at `port` with `m` attempts left, the loop either stops at the first
free candidate, having probed exactly the failed candidates below it
plus the winner, or probes all `m` candidates, all busy, and throws. -/
theorem findFreePortRun_spec (free : Nat → Bool) (s : Nat) :
    ∀ (m port : Nat),
      (∃ p, (findFreePortRun free s port m).2 = Except.ok p ∧ port ≤ p ∧ p < port + m ∧
        free p = true ∧ (∀ q, port ≤ q → q < p → free q = false) ∧
        (findFreePortRun free s port m).1 = List.range' port (p + 1 - port)) ∨
      ((findFreePortRun free s port m).2 =
          Except.error ("No free port found for Postgres starting at " ++ toString s) ∧
        (findFreePortRun free s port m).1 = List.range' port m ∧
        (∀ q, port ≤ q → q < port + m → free q = false)) := by
  intro m
  induction m with
  | zero =>
    intro port
    right
    exact ⟨rfl, rfl, fun q h1 h2 => absurd h2 (by omega)⟩
  | succ n ih =>
    intro port
    cases hf : free port with
    | true =>
      left
      refine ⟨port, ?_, Nat.le_refl _, by omega, hf, fun q h1 h2 => absurd h2 (by omega), ?_⟩
      · simp [findFreePortRun, hf]
      · have h1 : port + 1 - port = 1 := by omega
        simp [findFreePortRun, hf, h1, List.range']
    | false =>
      rcases ih (port + 1) with ⟨p, h2, h3, h4, h5, h6, h7⟩ | ⟨h2, h3, h4⟩
      · left
        refine ⟨p, ?_, by omega, by omega, h5, ?_, ?_⟩
        · simp [findFreePortRun, hf, h2]
        · intro q hq1 hq2
          rcases Nat.eq_or_lt_of_le hq1 with heq | hlt
          · exact heq ▸ hf
          · exact h6 q hlt hq2
        · have hstep : (findFreePortRun free s port (n + 1)).1
              = port :: (findFreePortRun free s (port + 1) n).1 := by
            simp [findFreePortRun, hf]
          rw [hstep, h7, show p + 1 - port = (p - port) + 1 by omega, List.range'_succ,
            show p + 1 - (port + 1) = p - port by omega]
      · right
        refine ⟨?_, ?_, ?_⟩
        · simp [findFreePortRun, hf, h2]
        · have hstep : (findFreePortRun free s port (n + 1)).1
              = port :: (findFreePortRun free s (port + 1) n).1 := by
            simp [findFreePortRun, hf]
          rw [hstep, h3, List.range'_succ]
        · intro q hq1 hq2
          rcases Nat.eq_or_lt_of_le hq1 with heq | hlt
          · exact heq ▸ hf
          · exact h4 q hlt (by omega)

/-! The claims. -/

/-- C1 counterexample: the Postgres process exits with code 1 before
any readiness line, yet the readiness promise is still pending — it is
not rejected with any error (the close handlers of `startPostgres` and
`startListmonk` never call reject). -/
theorem pg_exit_before_ready_not_rejected_cex :
    (pgRun [(false, PEvent.closeEv (some 1))]).promise = PromiseState.pending ∧
    promiseIsRejected (pgRun [(false, PEvent.closeEv (some 1))]).promise = false ∧
    (lmRun [(false, PEvent.closeEv (some 1))]).promise = PromiseState.pending :=
  ⟨rfl, rfl, rfl⟩

/-- C1, amended: if a supervised process exits (with any exit code)
before a line matching a readiness pattern has been observed, the
pending readiness promise is not rejected: as long as no readiness
match and no spawn error occur in the trace, the promise remains
pending across the exit event. -/
theorem exit_before_ready_promise_stays_pending
    (pre post : List (Bool × PEvent)) (q : Bool) (c : Option Int)
    (hpg : ∀ e ∈ pre ++ (q, PEvent.closeEv c) :: post, pgSettling e.2 = false)
    (hlm : ∀ e ∈ pre ++ (q, PEvent.closeEv c) :: post, lmSettling e.2 = false) :
    (pgRun (pre ++ (q, PEvent.closeEv c) :: post)).promise = PromiseState.pending ∧
    (lmRun (pre ++ (q, PEvent.closeEv c) :: post)).promise = PromiseState.pending := by
  constructor
  · rw [pgRun, pgFold_promise_of_not_settling _ pgInit hpg]
    rfl
  · rw [lmRun, lmFold_promise_of_not_settling _ lmInit hlm]
    rfl

/-- C1 witness: a concrete trace with a non-matching line and an exit
with code 1 leaves both promises pending. -/
theorem exit_before_ready_promise_stays_pending_witness :
    (pgRun ([(false, PEvent.outLine "LOG:  starting PostgreSQL")] ++
        (false, PEvent.closeEv (some 1)) :: [])).promise = PromiseState.pending ∧
    (lmRun ([(false, PEvent.outLine "LOG:  starting PostgreSQL")] ++
        (false, PEvent.closeEv (some 1)) :: [])).promise = PromiseState.pending :=
  exit_before_ready_promise_stays_pending
    [(false, PEvent.outLine "LOG:  starting PostgreSQL")] [] false (some 1)
    (by decide) (by decide)

/-- C2 counterexample: the application emits no recognizable readiness
line and exits with code 0; the pipeline does not reach the fallback
address — it stalls on the never-settled readiness promise. -/
theorem lm_no_ready_line_stalls_cex :
    pipelineAfterListmonk
        [(false, PEvent.outLine "shutting down"), (false, PEvent.closeEv (some 0))]
      = PipelineOutcome.stalled ∧
    PipelineOutcome.stalled ≠ PipelineOutcome.windowLoaded "9000" :=
  ⟨rfl, by decide⟩

/-- C2, amended: when the application never emits a line matching
either readiness pattern (and no spawn error fires), the startup
pipeline neither fails nor falls back to the default address: the
awaited readiness promise stays pending and the pipeline stalls.
Moreover the `9000` fallback can never be exercised by a readiness
resolution, because every captured port string is non-empty and hence
truthy. -/
theorem lm_no_ready_line_pipeline_stalls (evs : List (Bool × PEvent))
    (h : ∀ e ∈ evs, lmSettling e.2 = false) :
    pipelineAfterListmonk evs = PipelineOutcome.stalled ∧
    (∀ evs2 p, (lmRun evs2).promise = PromiseState.resolvedWith p →
      jsOrDefault p "9000" = p) := by
  constructor
  · have hp : (lmRun evs).promise = PromiseState.pending := by
      rw [lmRun, lmFold_promise_of_not_settling _ lmInit h]
      rfl
    simp [pipelineAfterListmonk, hp]
  · intro evs2 p hp
    have hne : p ≠ "" := by
      refine lmFold_resolved_ne_empty evs2 lmInit ?_ p hp
      intro p0 h0
      simp [lmInit] at h0
    simp [jsOrDefault, hne]

/-- C2 witness: a concrete no-readiness trace stalls the pipeline. -/
theorem lm_no_ready_line_pipeline_stalls_witness :
    pipelineAfterListmonk
        [(false, PEvent.outLine "could not bind socket"), (false, PEvent.closeEv (some 1))]
      = PipelineOutcome.stalled ∧
    (∀ evs2 p, (lmRun evs2).promise = PromiseState.resolvedWith p →
      jsOrDefault p "9000" = p) :=
  lm_no_ready_line_pipeline_stalls
    [(false, PEvent.outLine "could not bind socket"), (false, PEvent.closeEv (some 1))]
    (by decide)

/-- C3 counterexample: the same readiness line resolves the Listmonk
promise when it arrives on stdout but is ignored on stderr, because the
stderr handler of `startListmonk` only logs and never matches. -/
theorem lm_stderr_ready_line_ignored_cex :
    (lmRun [(false, PEvent.errLine "http server started on 127.0.0.1:8042")]).promise
      = PromiseState.pending ∧
    (lmRun [(false, PEvent.outLine "http server started on 127.0.0.1:8042")]).promise
      = PromiseState.resolvedWith "8042" :=
  ⟨rfl, by decide⟩

/-- C3, amended: for the database process both stdout and stderr lines
are scanned against the readiness pattern, and a match on either stream
resolves the promise; for the application process only stdout lines are
scanned — a stderr line never changes the handler state at all. -/
theorem readiness_stream_scanning :
    (∀ (st : PgState) (q : Bool) (line : String), pgReadyLine line = true →
      (pgStep st (q, PEvent.outLine line)).promise = promiseResolve st.promise () ∧
      (pgStep st (q, PEvent.errLine line)).promise = promiseResolve st.promise ()) ∧
    (∀ (st : LmState) (q : Bool) (line p : String), lmMatchPort line = some p →
      (lmStep st (q, PEvent.outLine line)).promise = promiseResolve st.promise p) ∧
    (∀ (st : LmState) (q : Bool) (line : String),
      lmStep st (q, PEvent.errLine line) = st) := by
  refine ⟨fun st q line h => ⟨?_, ?_⟩, fun st q line p h => ?_, fun st q line => ?_⟩
  · simp [pgStep, h]
  · simp [pgStep, h]
  · simp [lmStep, h]
  · simp [lmStep]

/-- C4: for every start port and attempt count, `findFreePort` either
returns a port in `[s, s + m)` whose probe succeeded while every lower
candidate in the range failed, or throws the port-exhaustion error
after probing exactly `m` candidates, all busy; and no candidate
outside `[s, s + m)` is ever probed. -/
theorem findFreePort_allocates_in_range (free : Nat → Bool) (s m : Nat) :
    ((∃ p, findFreePort free s m = Except.ok p ∧ s ≤ p ∧ p < s + m ∧ free p = true ∧
        (∀ q, s ≤ q → q < p → free q = false) ∧
        probedPorts free s m = List.range' s (p + 1 - s)) ∨
      (findFreePort free s m =
          Except.error ("No free port found for Postgres starting at " ++ toString s) ∧
        (probedPorts free s m).length = m ∧
        (∀ q, s ≤ q → q < s + m → free q = false))) ∧
    (∀ q, q ∈ probedPorts free s m → s ≤ q ∧ q < s + m) := by
  have h := findFreePortRun_spec free s m s
  constructor
  · rcases h with ⟨p, h1, h2, h3, h4, h5, h6⟩ | ⟨h1, h2, h3⟩
    · exact Or.inl ⟨p, h1, h2, h3, h4, h5, h6⟩
    · refine Or.inr ⟨h1, ?_, h3⟩
      have h2' : probedPorts free s m = List.range' s m := h2
      rw [h2', List.length_range']
  · intro q hq
    rcases h with ⟨p, h1, h2, h3, h4, h5, h6⟩ | ⟨h1, h2, h3⟩
    · have h6' : probedPorts free s m = List.range' s (p + 1 - s) := h6
      rw [h6'] at hq
      have := List.mem_range'_1.mp hq
      omega
    · have h2' : probedPorts free s m = List.range' s m := h2
      rw [h2'] at hq
      exact List.mem_range'_1.mp hq

/-- With the marker absent the initializer always spawns `initdb`
exactly once in that run. -/
theorem initDbIfNeeded_runs_of_marker_absent (u : Bool) (o : InitdbOutcome)
    (st : StorageState) (h : st.markerExists = false) :
    (initDbIfNeeded u o st).bootstrapRuns = 1 := by
  cases o with
  | exited c => by_cases hc : c = 0 <;> simp [initDbIfNeeded, h, hc]
  | spawnFailed m => simp [initDbIfNeeded, h]

/-- C5: running the storage initializer twice in sequence invokes the
bootstrap at most once — if the first run resolved, the marker is
present, so the second run spawns nothing and still resolves. -/
theorem storage_init_twice_bootstrap_once (st : StorageState) (u1 u2 : Bool)
    (o1 o2 : InitdbOutcome)
    (h : (initDbIfNeeded u1 o1 st).result = Except.ok ()) :
    (initDbIfNeeded u2 o2 (initDbIfNeeded u1 o1 st).state).bootstrapRuns = 0 ∧
    (initDbIfNeeded u2 o2 (initDbIfNeeded u1 o1 st).state).result = Except.ok () ∧
    (initDbIfNeeded u1 o1 st).bootstrapRuns
        + (initDbIfNeeded u2 o2 (initDbIfNeeded u1 o1 st).state).bootstrapRuns ≤ 1 := by
  have hm := initDbIfNeeded_ok_marker u1 o1 st h
  rw [initDbIfNeeded_marker_present u2 o2 _ hm]
  refine ⟨rfl, rfl, ?_⟩
  cases hm1 : st.markerExists with
  | true =>
    rw [initDbIfNeeded_marker_present u1 o1 st hm1]
    simp
  | false =>
    rw [initDbIfNeeded_runs_of_marker_absent u1 o1 st hm1]
    simp

/-- C5 witness: a fresh state, two successful runs, one bootstrap. -/
theorem storage_init_twice_bootstrap_once_witness :
    (initDbIfNeeded true (InitdbOutcome.exited 0)
        (initDbIfNeeded true (InitdbOutcome.exited 0)
          { dataDirExists := false, lockFileExists := true,
            markerExists := false }).state).bootstrapRuns = 0 ∧
    (initDbIfNeeded true (InitdbOutcome.exited 0)
        (initDbIfNeeded true (InitdbOutcome.exited 0)
          { dataDirExists := false, lockFileExists := true,
            markerExists := false }).state).result = Except.ok () ∧
    (initDbIfNeeded true (InitdbOutcome.exited 0)
        { dataDirExists := false, lockFileExists := true,
          markerExists := false }).bootstrapRuns
      + (initDbIfNeeded true (InitdbOutcome.exited 0)
          (initDbIfNeeded true (InitdbOutcome.exited 0)
            { dataDirExists := false, lockFileExists := true,
              markerExists := false }).state).bootstrapRuns ≤ 1 :=
  storage_init_twice_bootstrap_once
    { dataDirExists := false, lockFileExists := true, markerExists := false }
    true true (InitdbOutcome.exited 0) (InitdbOutcome.exited 0) (by rfl)

/-- C6: starting from a state without the marker, the initializer
spawns the bootstrap once; it writes the marker and resolves exactly
when the bootstrap exits with code 0, and on any nonzero exit or spawn
failure it rejects, leaves the marker absent, and a subsequent run
spawns the bootstrap again. -/
theorem storage_init_marker_iff_exit_zero (st : StorageState) (u : Bool)
    (o : InitdbOutcome) (h : st.markerExists = false) :
    (initDbIfNeeded u o st).bootstrapRuns = 1 ∧
    ((initDbIfNeeded u o st).state.markerExists = true ↔ o = InitdbOutcome.exited 0) ∧
    ((initDbIfNeeded u o st).result = Except.ok () ↔ o = InitdbOutcome.exited 0) ∧
    (∀ u2 o2, o ≠ InitdbOutcome.exited 0 →
      (initDbIfNeeded u2 o2 (initDbIfNeeded u o st).state).bootstrapRuns = 1) := by
  refine ⟨initDbIfNeeded_runs_of_marker_absent u o st h, ?_, ?_, ?_⟩
  · cases o with
    | exited c => by_cases hc : c = 0 <;> simp [initDbIfNeeded, h, hc]
    | spawnFailed m => simp [initDbIfNeeded, h]
  · cases o with
    | exited c => by_cases hc : c = 0 <;> simp [initDbIfNeeded, h, hc]
    | spawnFailed m => simp [initDbIfNeeded, h]
  · intro u2 o2 hne
    refine initDbIfNeeded_runs_of_marker_absent u2 o2 _ ?_
    cases o with
    | exited c =>
      by_cases hc : c = 0
      · exact absurd (by rw [hc]) hne
      · simp [initDbIfNeeded, h, hc]
    | spawnFailed m => simp [initDbIfNeeded, h]

/-- C6 witness: a failed bootstrap (exit code 1) rejects, leaves no
marker, and the next run bootstraps again. -/
theorem storage_init_marker_iff_exit_zero_witness :
    (initDbIfNeeded false (InitdbOutcome.exited 1)
        { dataDirExists := true, lockFileExists := false,
          markerExists := false }).bootstrapRuns = 1 ∧
    ((initDbIfNeeded false (InitdbOutcome.exited 1)
        { dataDirExists := true, lockFileExists := false,
          markerExists := false }).state.markerExists = true
      ↔ InitdbOutcome.exited 1 = InitdbOutcome.exited 0) ∧
    ((initDbIfNeeded false (InitdbOutcome.exited 1)
        { dataDirExists := true, lockFileExists := false,
          markerExists := false }).result = Except.ok ()
      ↔ InitdbOutcome.exited 1 = InitdbOutcome.exited 0) ∧
    (∀ u2 o2, InitdbOutcome.exited 1 ≠ InitdbOutcome.exited 0 →
      (initDbIfNeeded u2 o2 (initDbIfNeeded false (InitdbOutcome.exited 1)
          { dataDirExists := true, lockFileExists := false,
            markerExists := false }).state).bootstrapRuns = 1) :=
  storage_init_marker_iff_exit_zero
    { dataDirExists := true, lockFileExists := false, markerExists := false }
    false (InitdbOutcome.exited 1) (by rfl)

/-- C7: the readiness promise resolves exactly once, with the payload
of the first matching line; whatever comes after the first match —
including further matching lines — leaves the resolved value unchanged.
Stated for both handles: Listmonk resolves with the first captured
port, Postgres with the unit payload. -/
theorem readiness_resolves_once_first_match
    (pre post pre2 post2 : List (Bool × PEvent)) (q q2 : Bool)
    (line line2 p : String)
    (hm : lmMatchPort line = some p)
    (hpre : ∀ e ∈ pre, lmSettling e.2 = false)
    (hm2 : pgReadyLine line2 = true)
    (hpre2 : ∀ e ∈ pre2, pgSettling e.2 = false) :
    (lmRun (pre ++ (q, PEvent.outLine line) :: post)).promise
      = PromiseState.resolvedWith p ∧
    (pgRun (pre2 ++ (q2, PEvent.outLine line2) :: post2)).promise
      = PromiseState.resolvedWith () := by
  constructor
  · rw [lmRun, List.foldl_append, List.foldl_cons]
    apply lmFold_promise_of_resolved
    have h1 : (List.foldl lmStep lmInit pre).promise = PromiseState.pending := by
      rw [lmFold_promise_of_not_settling pre lmInit hpre]
      rfl
    simp [lmStep, hm, h1, promiseResolve]
  · rw [pgRun, List.foldl_append, List.foldl_cons]
    apply pgFold_promise_of_resolved
    have h1 : (List.foldl pgStep pgInit pre2).promise = PromiseState.pending := by
      rw [pgFold_promise_of_not_settling pre2 pgInit hpre2]
      rfl
    simp [pgStep, hm2, h1, promiseResolve]

/-- C7 witness: a second matching line with a different port is
ignored; the promise keeps the first captured port. -/
theorem readiness_resolves_once_first_match_witness :
    (lmRun ([] ++ (false, PEvent.outLine "http server started on 127.0.0.1:8042") ::
        [(false, PEvent.outLine "http server started on 127.0.0.1:9999")])).promise
      = PromiseState.resolvedWith "8042" ∧
    (pgRun ([] ++ (false, PEvent.outLine "LOG:  database system is ready to accept connections") ::
        [(false, PEvent.closeEv (some 0))])).promise
      = PromiseState.resolvedWith () :=
  readiness_resolves_once_first_match
    [] [(false, PEvent.outLine "http server started on 127.0.0.1:9999")]
    [] [(false, PEvent.closeEv (some 0))] false false
    "http server started on 127.0.0.1:8042"
    "LOG:  database system is ready to accept connections" "8042"
    (by decide) (by decide) (by decide) (by decide)

/-- C8: for a process exit event fired while the intentional-shutdown
flag is set, no crash dialog is shown regardless of exit code; fired
with the flag unset and a code other than 0, exactly one crash dialog
is shown, with a different title for the database and the application
process. -/
theorem crash_dialog_iff_unexpected_exit
    (pre post : List (Bool × PEvent)) (q : Bool) (c : Option Int)
    (h1 : ∀ e ∈ pre, isCloseEv e.2 = false)
    (h2 : ∀ e ∈ post, isCloseEv e.2 = false) :
    (lmRun (pre ++ (q, PEvent.closeEv c) :: post)).notifications
      = (if q then [] else if c = some 0 then [] else ["Listmonk Stopped"]) ∧
    (pgRun (pre ++ (q, PEvent.closeEv c) :: post)).notifications
      = (if q then [] else if c = some 0 then [] else ["Postgres Error"]) := by
  constructor
  · rw [lmRun, lmFold_notifications, lmNotifs_append, lmNotifs_cons,
      lmNotifs_of_no_close pre h1, lmNotifs_of_no_close post h2]
    cases q with
    | true => simp [lmInit, lmNotifs]
    | false =>
      by_cases hc : c = some 0
      · simp [lmInit, lmNotifs, hc]
      · simp [lmInit, lmNotifs, hc]
  · rw [pgRun, pgFold_notifications, pgNotifs_append, pgNotifs_cons,
      pgNotifs_of_no_close pre h1, pgNotifs_of_no_close post h2]
    cases q with
    | true => simp [pgInit, pgNotifs]
    | false =>
      by_cases hc : c = some 0
      · simp [pgInit, pgNotifs, hc]
      · simp [pgInit, pgNotifs, hc]

/-- C8 witness: an exit with code 1 while the flag is unset shows
exactly one dialog per process, with distinct titles. -/
theorem crash_dialog_iff_unexpected_exit_witness :
    (lmRun ([(false, PEvent.outLine "booting")] ++
        (false, PEvent.closeEv (some 1)) :: [])).notifications
      = (if (false : Bool) then [] else if (some 1 : Option Int) = some 0 then []
          else ["Listmonk Stopped"]) ∧
    (pgRun ([(false, PEvent.outLine "booting")] ++
        (false, PEvent.closeEv (some 1)) :: [])).notifications
      = (if (false : Bool) then [] else if (some 1 : Option Int) = some 0 then []
          else ["Postgres Error"]) :=
  crash_dialog_iff_unexpected_exit [(false, PEvent.outLine "booting")] [] false (some 1)
    (by decide) (by decide)

/-- C9 counterexample: when both the graceful signal and the forceful
fallback on the application handle throw, the will-quit handler raises
and the database handle is never signalled — the coordinator is not
exception-free as claimed. -/
theorem shutdown_fallback_throw_raises_cex :
    willQuit (some { sigtermThrows := true, killThrows := true })
        (some { sigtermThrows := false, killThrows := false })
      = ([ShutdownAction.sigterm "listmonk", ShutdownAction.forceKill "listmonk"],
          some "listmonk kill raised") ∧
    (willQuit (some { sigtermThrows := true, killThrows := true })
        (some { sigtermThrows := false, killThrows := false })).2 ≠ none ∧
    ShutdownAction.sigterm "postgres" ∉
      (willQuit (some { sigtermThrows := true, killThrows := true })
        (some { sigtermThrows := false, killThrows := false })).1 :=
  ⟨rfl, by decide, by decide⟩

/-- C9, amended: the shutdown coordinator signals the application
handle strictly before the database handle, treats an absent handle as
a no-op, and falls back to a forceful kill on the same handle when the
graceful signal throws; it never raises provided the forceful fallback
itself does not throw (that fallback sits in an unguarded catch
block). -/
theorem shutdown_order_fallback_noop (lm pg : Option KillBehavior)
    (hlm : ∀ b, lm = some b → b.sigtermThrows = true → b.killThrows = false)
    (hpg : ∀ b, pg = some b → b.sigtermThrows = true → b.killThrows = false) :
    (willQuit lm pg).2 = none ∧
    (willQuit lm pg).1
      = (killWithFallback "listmonk" lm).1 ++ (killWithFallback "postgres" pg).1 ∧
    (killWithFallback "listmonk" (none : Option KillBehavior)).1 = [] ∧
    (killWithFallback "postgres" (none : Option KillBehavior)).1 = [] ∧
    (∀ role b, b.sigtermThrows = true → (killWithFallback role (some b)).1
      = [ShutdownAction.sigterm role, ShutdownAction.forceKill role]) ∧
    (∀ role b, b.sigtermThrows = false → (killWithFallback role (some b)).1
      = [ShutdownAction.sigterm role]) := by
  have e1 := killWithFallback_no_raise "listmonk" lm hlm
  have e2 := killWithFallback_no_raise "postgres" pg hpg
  refine ⟨?_, ?_, rfl, rfl, ?_, ?_⟩
  · simp [willQuit, e1, e2]
  · simp [willQuit, e1]
  · intro role b hb
    simp [killWithFallback, hb]
  · intro role b hb
    simp [killWithFallback, hb]

/-- C9 witness: an application handle whose graceful kill throws but
whose fallback succeeds, and a database handle never spawned. -/
theorem shutdown_order_fallback_noop_witness :
    (willQuit (some { sigtermThrows := true, killThrows := false }) none).2 = none ∧
    (willQuit (some { sigtermThrows := true, killThrows := false }) none).1
      = (killWithFallback "listmonk"
          (some { sigtermThrows := true, killThrows := false })).1
        ++ (killWithFallback "postgres" (none : Option KillBehavior)).1 ∧
    (killWithFallback "listmonk" (none : Option KillBehavior)).1 = [] ∧
    (killWithFallback "postgres" (none : Option KillBehavior)).1 = [] ∧
    (∀ role b, b.sigtermThrows = true → (killWithFallback role (some b)).1
      = [ShutdownAction.sigterm role, ShutdownAction.forceKill role]) ∧
    (∀ role b, b.sigtermThrows = false → (killWithFallback role (some b)).1
      = [ShutdownAction.sigterm role]) :=
  shutdown_order_fallback_noop (some { sigtermThrows := true, killThrows := false }) none
    (by intro b hb ht; injection hb with hb2; rw [← hb2])
    (by intro b hb ht; exact Option.noConfusion hb)

/-- C10: the module-level Postgres handle is assigned in the
synchronous executor body, so it is set no matter what events — in
particular a spawn error — are delivered afterwards; the startPostgres
promise is rejected by the spawn error, yet with the application handle
never spawned the will-quit handler still sends the graceful
termination signal to the database handle. -/
theorem pg_handle_set_before_spawn_error
    (st : ModuleState) (proc : KillBehavior) (evs : List (Bool × PEvent))
    (q : Bool) (msg : String) (h : st.listmonkProcess = none) :
    ((startPostgresRun st proc ((q, PEvent.errorEv msg) :: evs)).1).pgProcess
      = some proc ∧
    (pgRun [(q, PEvent.errorEv msg)]).promise = PromiseState.rejectedWith msg ∧
    ShutdownAction.sigterm "postgres" ∈
      (willQuit ((startPostgresRun st proc ((q, PEvent.errorEv msg) :: evs)).1).listmonkProcess
        ((startPostgresRun st proc ((q, PEvent.errorEv msg) :: evs)).1).pgProcess).1 := by
  refine ⟨rfl, rfl, ?_⟩
  have hl : ((startPostgresRun st proc ((q, PEvent.errorEv msg) :: evs)).1).listmonkProcess
      = none := h
  have hp : ((startPostgresRun st proc ((q, PEvent.errorEv msg) :: evs)).1).pgProcess
      = some proc := rfl
  rw [hl, hp]
  cases hs : proc.sigtermThrows with
  | true => simp [willQuit, killWithFallback, hs]
  | false => simp [willQuit, killWithFallback, hs]

/-- C10 witness: a concrete spawn failure with no application handle
still leaves the database handle set and signalled. -/
theorem pg_handle_set_before_spawn_error_witness :
    ((startPostgresRun { pgProcess := none, listmonkProcess := none }
        { sigtermThrows := false, killThrows := false }
        ((false, PEvent.errorEv "spawn ENOENT") :: [])).1).pgProcess
      = some { sigtermThrows := false, killThrows := false } ∧
    (pgRun [(false, PEvent.errorEv "spawn ENOENT")]).promise
      = PromiseState.rejectedWith "spawn ENOENT" ∧
    ShutdownAction.sigterm "postgres" ∈
      (willQuit ((startPostgresRun { pgProcess := none, listmonkProcess := none }
          { sigtermThrows := false, killThrows := false }
          ((false, PEvent.errorEv "spawn ENOENT") :: [])).1).listmonkProcess
        ((startPostgresRun { pgProcess := none, listmonkProcess := none }
          { sigtermThrows := false, killThrows := false }
          ((false, PEvent.errorEv "spawn ENOENT") :: [])).1).pgProcess).1 :=
  pg_handle_set_before_spawn_error
    { pgProcess := none, listmonkProcess := none }
    { sigtermThrows := false, killThrows := false } [] false "spawn ENOENT" rfl
